import Mathlib

/-!
Verification of the `Optional<T>` container from `src/lib/index.ts`.

Modelling choices (shallow embedding):

* A raw TypeScript value of static type `T` is modelled as `Nullable α`:
  it is either the sentinel `null`, the sentinel `undefined`, or a proper
  value `value v` with `v : α`.  The two sentinels are kept distinct, as
  they are in JavaScript.
* The abstract class `Optional<T>` with its two concrete subclasses
  `PresentOptional<T>` (which stores the raw payload) and
  `EmptyOptional<T>` becomes the inductive type `Optional α` with
  constructors `PresentOptional` and `EmptyOptional`.
* A thrown JavaScript error is modelled with `Except`: a method that can
  throw returns `Except JSError _` (or `Except ε _` for `orElseThrow`,
  whose thrown value is caller-supplied).  `TypeError msg` builds the
  error object `new TypeError(msg)` (class name plus message).
* TypeScript callbacks (`consumer`, `predicate`, `mapper`, `supplier`,
  `errorSupplier`) may have side effects, and several claims are about
  whether and how often a callback is invoked.  Each callback is
  therefore modelled as an explicit state-passing function on an
  arbitrary state type `σ` (e.g. a `mapper` is
  `Nullable α → σ → Nullable β × σ`), and each method threads the state.
  "The callback is never invoked" is then provable as: the result is
  independent of the callback and the state comes back unchanged;
  "invoked exactly once on the payload" is: the result equals a single
  application of the callback to the payload.
-/

/-- A raw JavaScript value: `null`, `undefined`, or a proper value. -/
inductive Nullable (α : Type) where
  | null : Nullable α
  | undefined : Nullable α
  | value (v : α) : Nullable α
deriving DecidableEq

/-- Returns `true` exactly on the two absent-sentinels `null` and
`undefined` (the negation of the source's test
`value !== null && value !== undefined`). -/
def Nullable.isSentinel {α : Type} : Nullable α → Bool
  | .null => true
  | .undefined => true
  | .value _ => false

/-- A JavaScript error object, reduced to the two observable fields the
source uses: the class name (always `"TypeError"` here) and the message. -/
structure JSError where
  name : String
  message : String
deriving DecidableEq

/-- Builds `new TypeError(msg)`. -/
def TypeError (msg : String) : JSError :=
  { name := "TypeError", message := msg }

/-- The class hierarchy `Optional` / `PresentOptional` / `EmptyOptional`
of `src/lib/index.ts`, as a closed sum.  `PresentOptional` stores the raw
`payload` field. -/
inductive Optional (α : Type) where
  | PresentOptional (payload : Nullable α) : Optional α
  | EmptyOptional : Optional α
deriving DecidableEq

/-- `Optional.of` (src/lib/index.ts:102-107): returns a present optional
holding `value` when `value !== null && value !== undefined`, otherwise
throws `new TypeError("The passed value was null or undefined.")`. -/
def Optional.of {α : Type} (value : Nullable α) : Except JSError (Optional α) :=
  match value with
  | .value v => .ok (.PresentOptional (.value v))
  | .null => .error (TypeError "The passed value was null or undefined.")
  | .undefined => .error (TypeError "The passed value was null or undefined.")

/-- `Optional.ofNonNull` (src/lib/index.ts:115-117): alias of `Optional.of`. -/
def Optional.ofNonNull {α : Type} (value : Nullable α) : Except JSError (Optional α) :=
  Optional.of value

/-- `Optional.ofNullable` (src/lib/index.ts:126-131): present optional on a
non-sentinel argument, empty optional on `null`/`undefined`. -/
def Optional.ofNullable {α : Type} (nullable : Nullable α) : Optional α :=
  match nullable with
  | .value v => .PresentOptional (.value v)
  | .null => .EmptyOptional
  | .undefined => .EmptyOptional

/-- `Optional.empty` (src/lib/index.ts:136-138): returns an empty optional. -/
def Optional.empty {α : Type} : Optional α :=
  .EmptyOptional

/-- `isPresent` (src/lib/index.ts:144-146 / 195-197): `true` on the present
subclass, `false` on the empty one. -/
def Optional.isPresent {α : Type} : Optional α → Bool
  | .PresentOptional _ => true
  | .EmptyOptional => false

/-- `isEmpty` (src/lib/index.ts:12-14): the negation of `isPresent`,
defined once on the base class. -/
def Optional.isEmpty {α : Type} (o : Optional α) : Bool :=
  !o.isPresent

/-- `get` (src/lib/index.ts:153-155 / 203-205): the payload when present,
otherwise throws `new TypeError("The optional is not present.")`. -/
def Optional.get {α : Type} : Optional α → Except JSError (Nullable α)
  | .PresentOptional p => .ok p
  | .EmptyOptional => .error (TypeError "The optional is not present.")

/-- `ifPresent` (src/lib/index.ts:157-159 / 207-208): invokes the consumer
on the payload when present, does nothing when empty. -/
def Optional.ifPresent {α σ : Type} (o : Optional α)
    (consumer : Nullable α → σ → σ) (s : σ) : σ :=
  match o with
  | .PresentOptional p => consumer p s
  | .EmptyOptional => s

/-- `ifPresentOrElse` (src/lib/index.ts:161-163 / 210-212): invokes the
consumer on the payload when present, otherwise invokes the empty action. -/
def Optional.ifPresentOrElse {α σ : Type} (o : Optional α)
    (consumer : Nullable α → σ → σ) (emptyAction : σ → σ) (s : σ) : σ :=
  match o with
  | .PresentOptional p => consumer p s
  | .EmptyOptional => emptyAction s

/-- `filter` (src/lib/index.ts:165-167 / 214-216): when present, evaluates
`predicate(this.payload)` and returns `this` on `true` and
`Optional.empty()` on `false`; when empty, returns `this` untouched. -/
def Optional.filter {α σ : Type} (o : Optional α)
    (predicate : Nullable α → σ → Bool × σ) (s : σ) : Optional α × σ :=
  match o with
  | .PresentOptional p =>
    (if (predicate p s).1 then o else Optional.empty, (predicate p s).2)
  | .EmptyOptional => (o, s)

/-- `map` (src/lib/index.ts:169-171 / 218-220): when present, returns
`Optional.ofNullable(mapper(this.payload))`; when empty, returns
`Optional.empty()` without touching the mapper. -/
def Optional.map {α β σ : Type} (o : Optional α)
    (mapper : Nullable α → σ → Nullable β × σ) (s : σ) : Optional β × σ :=
  match o with
  | .PresentOptional p => (Optional.ofNullable (mapper p s).1, (mapper p s).2)
  | .EmptyOptional => (Optional.empty, s)

/-- `flatMap` (src/lib/index.ts:173-175 / 222-224): when present, returns
`mapper(this.payload)` directly; when empty, returns `Optional.empty()`
without touching the mapper. -/
def Optional.flatMap {α β σ : Type} (o : Optional α)
    (mapper : Nullable α → σ → Optional β × σ) (s : σ) : Optional β × σ :=
  match o with
  | .PresentOptional p => mapper p s
  | .EmptyOptional => (Optional.empty, s)

/-- `or` (src/lib/index.ts:177-179 / 226-228): when present, returns
`this` without touching the supplier; when empty, returns `supplier()`. -/
def Optional.or {α σ : Type} (o : Optional α)
    (supplier : σ → Optional α × σ) (s : σ) : Optional α × σ :=
  match o with
  | .PresentOptional _ => (o, s)
  | .EmptyOptional => supplier s

/-- `orElse` (src/lib/index.ts:181-183 / 230-232): the payload when
present, otherwise the already-evaluated argument `another`. -/
def Optional.orElse {α : Type} (o : Optional α) (another : Nullable α) : Nullable α :=
  match o with
  | .PresentOptional p => p
  | .EmptyOptional => another

/-- `orElseGet` (src/lib/index.ts:185-187 / 234-236): the payload when
present, without touching the supplier; when empty the source computes
`this.orElse(another())`. -/
def Optional.orElseGet {α σ : Type} (o : Optional α)
    (another : σ → Nullable α × σ) (s : σ) : Nullable α × σ :=
  match o with
  | .PresentOptional p => (p, s)
  | .EmptyOptional => (Optional.orElse o (another s).1, (another s).2)

/-- `orElseThrow` (src/lib/index.ts:189-191 / 238-240): the payload when
present, without touching the error supplier; when empty, throws exactly
the value `exception()` produced. -/
def Optional.orElseThrow {α σ ε : Type} (o : Optional α)
    (exception : σ → ε × σ) (s : σ) : Except ε (Nullable α) × σ :=
  match o with
  | .PresentOptional p => (.ok p, s)
  | .EmptyOptional => (.error (exception s).1, (exception s).2)

/-- The non-sentinel invariant of claim C9: a present optional never
stores `null` or `undefined` as its payload. -/
def Optional.presentNonSentinel {α : Type} : Optional α → Bool
  | .PresentOptional p => !p.isSentinel
  | .EmptyOptional => true

/-- Lifts `Optional.presentNonSentinel` through the `Except` returned by
`Optional.of`: a thrown error trivially satisfies the invariant. -/
def resultInv {α : Type} : Except JSError (Optional α) → Bool
  | .ok o => o.presentNonSentinel
  | .error _ => true

/-- C1: for every non-sentinel raw value `n`, `of(n)` returns a present
optional with `isPresent == true` and `get() == n`, and `ofNullable(n)`
returns the same present optional; `ofNullable` on either sentinel returns
an empty optional (and, being total, never fails); `empty()` always
returns an empty optional, which is not present. -/
theorem spec_C1 {α : Type} (n : Nullable α)
    (h1 : n ≠ Nullable.null) (h2 : n ≠ Nullable.undefined) :
    Optional.of n = Except.ok (Optional.PresentOptional n)
  ∧ (Optional.PresentOptional n).isPresent = true
  ∧ (Optional.PresentOptional n).get = Except.ok n
  ∧ Optional.ofNullable n = Optional.PresentOptional n
  ∧ Optional.ofNullable (Nullable.null : Nullable α) = Optional.EmptyOptional
  ∧ Optional.ofNullable (Nullable.undefined : Nullable α) = Optional.EmptyOptional
  ∧ (Optional.empty : Optional α) = Optional.EmptyOptional
  ∧ (Optional.EmptyOptional : Optional α).isPresent = false := by
  cases n with
  | null => exact absurd rfl h1
  | undefined => exact absurd rfl h2
  | value v =>
    exact ⟨rfl, rfl, rfl, rfl, rfl, rfl, rfl, rfl⟩

/-- Witness for C1 at the concrete non-sentinel value `3 : Nat`. -/
theorem spec_C1_witness :
    Optional.of (Nullable.value 3)
      = Except.ok (Optional.PresentOptional (Nullable.value 3))
  ∧ (Optional.PresentOptional (Nullable.value 3)).isPresent = true
  ∧ (Optional.PresentOptional (Nullable.value 3)).get = Except.ok (Nullable.value 3)
  ∧ Optional.ofNullable (Nullable.value 3) = Optional.PresentOptional (Nullable.value 3)
  ∧ Optional.ofNullable (Nullable.null : Nullable Nat) = Optional.EmptyOptional
  ∧ Optional.ofNullable (Nullable.undefined : Nullable Nat) = Optional.EmptyOptional
  ∧ (Optional.empty : Optional Nat) = Optional.EmptyOptional
  ∧ (Optional.EmptyOptional : Optional Nat).isPresent = false :=
  spec_C1 (Nullable.value 3) (by decide) (by decide)

/-- The error value thrown by `of`/`ofNonNull` on a sentinel argument:
the spec's `InvalidArgument` kind. -/
def invalidArgumentError : JSError :=
  TypeError "The passed value was null or undefined."

/-- The error value thrown by `get()` on an empty optional: the spec's
`IllegalState` kind. -/
def illegalStateError : JSError :=
  TypeError "The optional is not present."

/-- C2: `of` and its alias `ofNonNull` throw the `InvalidArgument` error
on both sentinel inputs, `get()` on the empty optional throws the
`IllegalState` error, and the two error values are distinct, so every
such failure identifies which of the two kinds occurred. -/
theorem spec_C2 (α : Type) :
    Optional.of (Nullable.null : Nullable α) = Except.error invalidArgumentError
  ∧ Optional.of (Nullable.undefined : Nullable α) = Except.error invalidArgumentError
  ∧ Optional.ofNonNull (Nullable.null : Nullable α) = Except.error invalidArgumentError
  ∧ Optional.ofNonNull (Nullable.undefined : Nullable α) = Except.error invalidArgumentError
  ∧ (Optional.EmptyOptional : Optional α).get = Except.error illegalStateError
  ∧ invalidArgumentError ≠ illegalStateError :=
  ⟨rfl, rfl, rfl, rfl, rfl, by decide⟩

/-- C3: on a present optional, `map` invokes the mapper exactly once on
the payload and wraps the raw result with `ofNullable`; in particular a
sentinel mapper result collapses to empty and a non-sentinel result `w`
gives `get() == w`; on an empty optional, `map` returns empty with the
state unchanged, for every mapper — the mapper is never invoked. -/
theorem spec_C3 {α β σ : Type} (p : Nullable α)
    (f : Nullable α → σ → Nullable β × σ) (s : σ) :
    Optional.map (Optional.PresentOptional p) f s
      = (Optional.ofNullable (f p s).1, (f p s).2)
  ∧ ((f p s).1.isSentinel = true →
      (Optional.map (Optional.PresentOptional p) f s).1 = Optional.EmptyOptional)
  ∧ ((f p s).1.isSentinel = false →
      (Optional.map (Optional.PresentOptional p) f s).1.get = Except.ok (f p s).1)
  ∧ Optional.map (Optional.EmptyOptional : Optional α) f s
      = (Optional.EmptyOptional, s) := by
  refine ⟨rfl, ?_, ?_, rfl⟩
  · intro h
    show Optional.ofNullable (f p s).1 = Optional.EmptyOptional
    cases hv : (f p s).1 with
    | null => rfl
    | undefined => rfl
    | value w => rw [hv] at h; exact absurd h (by simp [Nullable.isSentinel])
  · intro h
    show (Optional.ofNullable (f p s).1).get = Except.ok (f p s).1
    cases hv : (f p s).1 with
    | null => rw [hv] at h; exact absurd h (by simp [Nullable.isSentinel])
    | undefined => rw [hv] at h; exact absurd h (by simp [Nullable.isSentinel])
    | value w => rfl

/-- Witness for C3: a mapper that returns `null` collapses to empty, a
mapper that returns the payload gives it back through `get`, both with a
counter incremented exactly once. -/
theorem spec_C3_witness :
    (Optional.map (Optional.PresentOptional (Nullable.value 2))
        (fun _ s => ((Nullable.null : Nullable Nat), s + 1)) 0).1
      = Optional.EmptyOptional
  ∧ (Optional.map (Optional.PresentOptional (Nullable.value 2))
        (fun v s => ((v : Nullable Nat), s + 1)) 0).1.get
      = Except.ok (Nullable.value 2) :=
  ⟨(spec_C3 (Nullable.value 2) (fun _ s => (Nullable.null, s + 1)) 0).2.1 rfl,
   (spec_C3 (Nullable.value 2) (fun v s => (v, s + 1)) 0).2.2.1 rfl⟩

/-- C4: on a present optional, `flatMap` returns exactly the optional the
mapper produced on the payload, with no extra wrapping — so `get` on the
result is `get` on the mapper's result; on an empty optional, `flatMap`
returns empty with the state unchanged, for every mapper — the mapper is
never invoked. -/
theorem spec_C4 {α β σ : Type} (p : Nullable α)
    (f : Nullable α → σ → Optional β × σ) (s : σ) :
    Optional.flatMap (Optional.PresentOptional p) f s = f p s
  ∧ (Optional.flatMap (Optional.PresentOptional p) f s).1.get = ((f p s).1).get
  ∧ Optional.flatMap (Optional.EmptyOptional : Optional α) f s
      = (Optional.EmptyOptional, s) :=
  ⟨rfl, rfl, rfl⟩

/-- C5: on a present optional, `filter` invokes the predicate exactly
once on the payload, keeps the very same present optional (same payload)
when the predicate holds and returns empty when it does not; on an empty
optional, `filter` returns empty with the state unchanged, for every
predicate — the predicate is never invoked. -/
theorem spec_C5 {α σ : Type} (p : Nullable α)
    (pred : Nullable α → σ → Bool × σ) (s : σ) :
    ((pred p s).1 = true →
      Optional.filter (Optional.PresentOptional p) pred s
        = (Optional.PresentOptional p, (pred p s).2))
  ∧ ((pred p s).1 = false →
      Optional.filter (Optional.PresentOptional p) pred s
        = (Optional.EmptyOptional, (pred p s).2))
  ∧ Optional.filter (Optional.EmptyOptional : Optional α) pred s
      = (Optional.EmptyOptional, s) := by
  refine ⟨?_, ?_, rfl⟩
  · intro h
    show (if (pred p s).1 then Optional.PresentOptional p else Optional.empty, (pred p s).2) = _
    rw [h]
    rfl
  · intro h
    show (if (pred p s).1 then Optional.PresentOptional p else Optional.empty, (pred p s).2) = _
    rw [h]
    rfl

/-- Witness for C5: a passing and a failing predicate on the payload `7`,
each invoked exactly once (the counter goes from `0` to `1`), and a
counting predicate on the empty optional, never invoked (the counter
stays `0`). -/
theorem spec_C5_witness :
    Optional.filter (Optional.PresentOptional (Nullable.value 7))
        (fun _ s => (true, s + 1)) 0
      = (Optional.PresentOptional (Nullable.value 7), 1)
  ∧ Optional.filter (Optional.PresentOptional (Nullable.value 7))
        (fun _ s => (false, s + 1)) 0
      = (Optional.EmptyOptional, 1)
  ∧ Optional.filter (Optional.EmptyOptional : Optional Nat)
        (fun _ s => (true, s + 1)) 0
      = (Optional.EmptyOptional, 0) :=
  ⟨(spec_C5 (Nullable.value 7) (fun _ s => (true, s + 1)) 0).1 rfl,
   (spec_C5 (Nullable.value 7) (fun _ s => (false, s + 1)) 0).2.1 rfl,
   (spec_C5 (Nullable.value 7) (fun _ s => (true, s + 1)) 0).2.2⟩

/-- C6: on a present optional with payload `p`, `or` returns the same
optional, `orElse` and `orElseGet` return `p`, all with the state
unchanged for every supplier — no supplier is invoked; on an empty
optional, `orElse y` returns `y` (it takes an already-evaluated value,
so nothing is invoked), `orElseGet` returns exactly the supplier's
result, and `or` returns exactly the optional the supplier produced. -/
theorem spec_C6 {α σ : Type} (p : Nullable α) (y : Nullable α)
    (supplier : σ → Optional α × σ) (vsup : σ → Nullable α × σ) (s : σ) :
    Optional.or (Optional.PresentOptional p) supplier s
      = (Optional.PresentOptional p, s)
  ∧ Optional.orElse (Optional.PresentOptional p) y = p
  ∧ Optional.orElseGet (Optional.PresentOptional p) vsup s = (p, s)
  ∧ Optional.orElse (Optional.EmptyOptional : Optional α) y = y
  ∧ Optional.orElseGet (Optional.EmptyOptional : Optional α) vsup s = vsup s
  ∧ Optional.or (Optional.EmptyOptional : Optional α) supplier s = supplier s :=
  ⟨rfl, rfl, rfl, rfl, rfl, rfl⟩

/-- C7: on a present optional, `orElseThrow` returns the payload with the
state unchanged for every error supplier — the supplier is never invoked;
on an empty optional, it invokes the supplier exactly once and throws
exactly the error value the supplier produced, unwrapped. -/
theorem spec_C7 {α σ ε : Type} (p : Nullable α)
    (es : σ → ε × σ) (s : σ) :
    Optional.orElseThrow (Optional.PresentOptional p) es s = (Except.ok p, s)
  ∧ Optional.orElseThrow (Optional.EmptyOptional : Optional α) es s
      = (Except.error (es s).1, (es s).2) :=
  ⟨rfl, rfl⟩

/-- C8: `ifPresent` invokes the consumer exactly once on the payload when
present (the result is one application of the consumer) and leaves the
state untouched when empty; `ifPresentOrElse` runs exactly one of its two
callbacks exactly once: the consumer on the payload when present (the
empty action plays no role), the empty action when empty (the consumer
plays no role). -/
theorem spec_C8 {α σ : Type} (p : Nullable α)
    (consumer : Nullable α → σ → σ) (emptyAction : σ → σ) (s : σ) :
    Optional.ifPresent (Optional.PresentOptional p) consumer s = consumer p s
  ∧ Optional.ifPresent (Optional.EmptyOptional : Optional α) consumer s = s
  ∧ Optional.ifPresentOrElse (Optional.PresentOptional p) consumer emptyAction s
      = consumer p s
  ∧ Optional.ifPresentOrElse (Optional.EmptyOptional : Optional α) consumer emptyAction s
      = emptyAction s :=
  ⟨rfl, rfl, rfl, rfl⟩

/-- C9: every public construction establishes the non-sentinel invariant
(`of`, `ofNonNull` — when they return at all —, `ofNullable`, `empty`),
and every combinator that produces an optional preserves it: `filter`
from an invariant input, `map` unconditionally (the mapper's raw result
passes through `ofNullable`), `flatMap` and `or` when the optionals the
callbacks return satisfy it; consequently `get` on a present invariant
optional returns its payload, which is never a sentinel. -/
theorem spec_C9 {α β σ : Type} (o : Optional α) (q n : Nullable α)
    (f : Nullable α → σ → Nullable β × σ)
    (g : Nullable α → σ → Optional β × σ)
    (sup : σ → Optional α × σ)
    (pred : Nullable α → σ → Bool × σ) (s : σ) :
    resultInv (Optional.of n) = true
  ∧ resultInv (Optional.ofNonNull n) = true
  ∧ (Optional.ofNullable n).presentNonSentinel = true
  ∧ (Optional.empty : Optional α).presentNonSentinel = true
  ∧ (o.presentNonSentinel = true →
      ((Optional.filter o pred s).1).presentNonSentinel = true)
  ∧ ((Optional.map o f s).1).presentNonSentinel = true
  ∧ (o.presentNonSentinel = true →
      (∀ v t, ((g v t).1).presentNonSentinel = true) →
      ((Optional.flatMap o g s).1).presentNonSentinel = true)
  ∧ (o.presentNonSentinel = true → ((sup s).1).presentNonSentinel = true →
      ((Optional.or o sup s).1).presentNonSentinel = true)
  ∧ (o.presentNonSentinel = true → o = Optional.PresentOptional q →
      o.get = Except.ok q ∧ q.isSentinel = false) := by
  refine ⟨?_, ?_, ?_, rfl, ?_, ?_, ?_, ?_, ?_⟩
  · cases n <;> rfl
  · cases n <;> rfl
  · cases n <;> rfl
  · intro h
    cases o with
    | EmptyOptional => rfl
    | PresentOptional p =>
      show (if (pred p s).1 then Optional.PresentOptional p
            else Optional.empty).presentNonSentinel = true
      cases (pred p s).1 with
      | false => rfl
      | true => exact h
  · cases o with
    | EmptyOptional => rfl
    | PresentOptional p =>
      show (Optional.ofNullable (f p s).1).presentNonSentinel = true
      cases (f p s).1 <;> rfl
  · intro _ hg
    cases o with
    | EmptyOptional => rfl
    | PresentOptional p => exact hg p s
  · intro h hs
    cases o with
    | EmptyOptional => exact hs
    | PresentOptional p => exact h
  · intro h hq
    subst hq
    refine ⟨rfl, ?_⟩
    simpa [Optional.presentNonSentinel] using h

/-- Witness for C9 at concrete inputs: the invariant present optional
holding `1`, the raw value `2`, a mapper returning `null`, a mapper and
a supplier returning the empty optional, and a `false` predicate. -/
theorem spec_C9_witness :
    resultInv (Optional.of (Nullable.value 2)) = true
  ∧ resultInv (Optional.ofNonNull (Nullable.value 2)) = true
  ∧ (Optional.ofNullable (Nullable.value 2)).presentNonSentinel = true
  ∧ (Optional.empty : Optional Nat).presentNonSentinel = true
  ∧ ((Optional.filter (Optional.PresentOptional (Nullable.value 1))
        (fun _ t => (false, t)) 0).1).presentNonSentinel = true
  ∧ ((Optional.map (Optional.PresentOptional (Nullable.value 1))
        (fun _ t => ((Nullable.null : Nullable Nat), t)) 0).1).presentNonSentinel = true
  ∧ ((Optional.flatMap (Optional.PresentOptional (Nullable.value 1))
        (fun _ t => ((Optional.EmptyOptional : Optional Nat), t)) 0).1).presentNonSentinel = true
  ∧ ((Optional.or (Optional.PresentOptional (Nullable.value 1))
        (fun t => ((Optional.EmptyOptional : Optional Nat), t)) 0).1).presentNonSentinel = true
  ∧ ((Optional.PresentOptional (Nullable.value 1)).get
        = Except.ok (Nullable.value (1 : Nat))
      ∧ (Nullable.value (1 : Nat)).isSentinel = false) := by
  have h := spec_C9 (Optional.PresentOptional (Nullable.value 1))
    (Nullable.value 1) (Nullable.value 2)
    (fun _ t => ((Nullable.null : Nullable Nat), t))
    (fun _ t => ((Optional.EmptyOptional : Optional Nat), t))
    (fun t => ((Optional.EmptyOptional : Optional Nat), t))
    (fun _ t => (false, t)) (0 : Nat)
  exact ⟨h.1, h.2.1, h.2.2.1, h.2.2.2.1, h.2.2.2.2.1 rfl, h.2.2.2.2.2.1,
    h.2.2.2.2.2.2.1 rfl (fun _ _ => rfl), h.2.2.2.2.2.2.2.1 rfl rfl,
    h.2.2.2.2.2.2.2.2 rfl rfl⟩

/-- C10: both documented failure points throw an error whose class name
is `"TypeError"` — `of`/`ofNonNull` on a sentinel with message
`"The passed value was null or undefined."` and `get()` on empty with
message `"The optional is not present."` — so the two failures share the
error class and differ only in their message strings. -/
theorem spec_C10 (α : Type) :
    Optional.of (Nullable.null : Nullable α)
      = Except.error (TypeError "The passed value was null or undefined.")
  ∧ Optional.of (Nullable.undefined : Nullable α)
      = Except.error (TypeError "The passed value was null or undefined.")
  ∧ Optional.ofNonNull (Nullable.null : Nullable α)
      = Except.error (TypeError "The passed value was null or undefined.")
  ∧ Optional.ofNonNull (Nullable.undefined : Nullable α)
      = Except.error (TypeError "The passed value was null or undefined.")
  ∧ (Optional.EmptyOptional : Optional α).get
      = Except.error (TypeError "The optional is not present.")
  ∧ (TypeError "The passed value was null or undefined.").name
      = (TypeError "The optional is not present.").name
  ∧ (TypeError "The passed value was null or undefined.").message
      ≠ (TypeError "The optional is not present.").message :=
  ⟨rfl, rfl, rfl, rfl, rfl, rfl, by decide⟩
